import Mathlib

/-!
Verification of the spacehack helper routines (`helper_functions.py`).

The file embeds the repository's describable core — z-scale image
normalization (`preprocess` / `scale_image`), center-marker annotation
(`add_red_circle`), batch prompt assembly (`batch_data_create`), the
BigQuery table-existence helper (`if_tbl_exists`) and the prompt-list
builder (`create_ex`) — as executable Lean definitions, and proves the
specified properties about them.

Modelling conventions:
* Python / numpy floating-point values are modelled by `ℚ` plus an
  explicit `NpVal` sum that records IEEE non-finite results (`nan`,
  `inf`) produced by division, since numpy division by zero warns and
  yields a non-finite value rather than raising.
* Python dicts serialized with `json.dumps` are modelled by a `Json`
  inductive; dict insertion order (preserved by Python 3.7+) maps to
  the order of the association list.
* External collaborators (astropy's `ZScaleInterval.get_limits`, image
  loading, the BigQuery client) are parameters of the embedded
  functions; claims hypothesize over their reported results.
* Python exceptions surface as `Except`.
-/

/-- The error raised when an element of the dynamic prompt is neither a
string nor an object exposing `to_dict` (in CPython this surfaces as an
`AttributeError` from the `.to_dict()` call; the spec names the failure
`InvalidPartError`). -/
inductive InvalidPartError where
  | unsupportedType
deriving DecidableEq

/-- JSON values, as produced by the Python code before `json.dumps`.
Field order of `obj` is the dict insertion order. -/
inductive Json where
  | str (s : String)
  | num (q : ℚ)
  | arr (elems : List Json)
  | obj (fields : List (String × Json))

/-- An element of the `dyna_prompt` list passed to `batch_data_create`:
a Python `str`, an object with a `to_dict` method (the vertexai image
`Part`, carried as the JSON dict its `to_dict` returns), or any other
value (no `to_dict`). -/
inductive DynaPart where
  | str (s : String)
  | image (d : Json)
  | invalid

/-- The conversion applied to one valid element of `dyna_prompt`:
`{"text": s}` for a string, `x.to_dict()` for an image part. For
`invalid` it returns a junk value that is only ever used under a
validity hypothesis. -/
def partJson : DynaPart → Json
  | .str s => .obj [("text", .str s)]
  | .image d => d
  | .invalid => .obj []

/-- The loop of `batch_data_create` building `dyna_prompt_part`:
strings become text parts, everything else has `.to_dict()` called on
it, which raises on an unsupported value. The loop is fail-fast: the
exception escapes at the first unsupported element. -/
def dynaPromptParts : List DynaPart → Except InvalidPartError (List Json)
  | [] => .ok []
  | .str s :: xs => (dynaPromptParts xs).map (fun r => Json.obj [("text", .str s)] :: r)
  | .image d :: xs => (dynaPromptParts xs).map (fun r => d :: r)
  | .invalid :: _ => .error .unsupportedType

/-- The dict built by `batch_data_create` (before `json.dumps`),
translated field by field from `helper_functions.py` lines 245-284. -/
def batch_data_payload (stat_prompt : String) (dyna_prompt : List DynaPart)
    (TEMPERATURE TOP_P : ℚ) : Except InvalidPartError Json :=
  (dynaPromptParts dyna_prompt).map fun dyna_prompt_part =>
    Json.obj [
      ("contents", .arr [
        .obj [
          ("role", .str "user"),
          ("parts", .arr dyna_prompt_part)
        ]
      ]),
      ("system_instruction", .obj [
        ("parts", .arr [
          .obj [("text", .str stat_prompt)]
        ])
      ]),
      ("generationConfig", .obj [
        ("maxOutputTokens", .num 2024),
        ("temperature", .num TEMPERATURE),
        ("topP", .num TOP_P),
        ("responseMimeType", .str "application/json")
      ]),
      ("safetySettings", .arr [
        .obj [("category", .str "HARM_CATEGORY_HATE_SPEECH"), ("threshold", .str "BLOCK_NONE")],
        .obj [("category", .str "HARM_CATEGORY_DANGEROUS_CONTENT"), ("threshold", .str "BLOCK_NONE")],
        .obj [("category", .str "HARM_CATEGORY_SEXUALLY_EXPLICIT"), ("threshold", .str "BLOCK_NONE")],
        .obj [("category", .str "HARM_CATEGORY_HARASSMENT"), ("threshold", .str "BLOCK_NONE")]
      ])
    ]

/-- Escaping of one character inside a JSON string, as `json.dumps`
does for the quote and backslash (the strings this program serializes
contain no control characters, whose escaping is therefore elided). -/
def escapeChar (c : Char) : String :=
  if c = '"' then "\\\"" else if c = '\\' then "\\\\" else String.singleton c

/-- JSON string-content escaping. -/
def escape (s : String) : String :=
  String.join (s.toList.map escapeChar)

/-- Decimal rendering of a number, standing in for Python's `repr` of
ints and floats (exact value, deterministic). -/
def numRepr (q : ℚ) : String :=
  if q.den = 1 then toString q.num else toString q.num ++ "/" ++ toString q.den

/-- The serialization performed by `json.dumps` with default options:
fields in insertion order, separators `", "` and `": "`. -/
def json_dumps : Json → String
  | .str s => "\"" ++ escape s ++ "\""
  | .num q => numRepr q
  | .arr xs => "[" ++ String.intercalate ", " (xs.attach.map (fun x => json_dumps x.1)) ++ "]"
  | .obj kvs => "\x7b" ++ String.intercalate ", "
      (kvs.attach.map (fun kv => "\"" ++ escape kv.1.1 ++ "\": " ++ json_dumps kv.1.2)) ++ "\x7d"
decreasing_by
  · have h := List.sizeOf_lt_of_mem x.2
    simp only [Json.arr.sizeOf_spec]
    omega
  · have h := List.sizeOf_lt_of_mem kv.2
    have h2 : sizeOf kv.1.2 < sizeOf kv.1 := by
      obtain ⟨⟨k, v⟩, hm⟩ := kv
      simp only [Prod.mk.sizeOf_spec]
      omega
    simp only [Json.obj.sizeOf_spec]
    omega

/-- `batch_data_create` (`helper_functions.py` lines 223-284): builds
the payload dict and returns its `json.dumps` serialization; an
unsupported dynamic part makes the call raise instead. -/
def batch_data_create (stat_prompt : String) (dyna_prompt : List DynaPart)
    (TEMPERATURE TOP_P : ℚ) : Except InvalidPartError String :=
  (batch_data_payload stat_prompt dyna_prompt TEMPERATURE TOP_P).map json_dumps

/-- Field lookup in a JSON object (first match), used only to state
structural properties of payloads. -/
def Json.getField : Json → String → Option Json
  | .obj kvs, k => (kvs.find? (fun kv => kv.1 = k)).map Prod.snd
  | _, _ => none

/-- Extracts `payload["contents"][0]["parts"]` when the payload has the
expected shape. -/
def contentsPartsOf (j : Json) : Option (List Json) :=
  match j.getField "contents" with
  | some (.arr [turn]) =>
    match turn.getField "parts" with
    | some (.arr parts) => some parts
    | _ => none
  | _ => none

/-!
## Image normalizer (`preprocess` / `scale_image`, lines 74-105)
-/

/-- The value of one output pixel of the normalizer: an ordinary
number, or an IEEE non-finite value produced by dividing by zero
(numpy's default is to warn, not raise, and to return `nan`/`inf`). -/
inductive NpVal where
  | rat (q : ℚ)
  | nan
  | inf
  | ninf
deriving DecidableEq

/-- `np.clip(x, lo, hi)` on one element: `min(max(x, lo), hi)` (numpy
applies the lower bound first, so `lo > hi` yields `hi`). -/
def npClip (x lo hi : ℚ) : ℚ :=
  min (max x lo) hi

/-- Elementwise numpy division with IEEE semantics for a zero
denominator: `0/0 = nan`, `±a/0 = ±inf`; no exception is raised. -/
def npDiv (a b : ℚ) : NpVal :=
  if b = 0 then (if a = 0 then .nan else if 0 < a then .inf else .ninf)
  else .rat (a / b)

/-- One pixel of `scale_image`: clip to `[vmin, vmax]`, then
`255 * (x - vmin) / (vmax - vmin)`. -/
def scalePixel (vmin vmax x : ℚ) : NpVal :=
  npDiv (255 * (npClip x vmin vmax - vmin)) (vmax - vmin)

/-- A 2D channel array. -/
abbrev Img2 : Type := List (List ℚ)

/-- A 2D normalized channel (pixels may be non-finite). -/
abbrev Img2N : Type := List (List NpVal)

/-- `scale_image` (lines 89-93): obtain `(vmin, vmax)` from the z-scale
interval estimator (astropy's `ZScaleInterval.get_limits`, an external
collaborator passed in as `get_limits`), clip the channel to
`[vmin, vmax]`, rescale elementwise to `255 * (x - vmin)/(vmax - vmin)`. -/
def scale_image (get_limits : Img2 → ℚ × ℚ) (image : Img2) : Img2N :=
  let l := get_limits image
  image.map (List.map (scalePixel l.1 l.2))

/-- One triplet frame: an `H × W` grid of `(new, reference, difference)`
channel values, i.e. `nd_array[i, :, :, 0..2]`. -/
abbrev Frame : Type := List (List (ℚ × ℚ × ℚ))

/-- The 4D input array `nd_array` of `preprocess`: a list of frames. -/
abbrev NdArray : Type := List Frame

/-- The read-only slice `nd_array[i, :, :, c]`: a view selecting one
channel of one frame; it copies nothing and mutates nothing. -/
def channelOf (frame : Frame) (c : Fin 3) : Img2 :=
  frame.map (List.map (fun p => match c with | 0 => p.1 | 1 => p.2.1 | 2 => p.2.2))

/-- `preprocess` (lines 74-105) with the array state made explicit: the
result triplet is paired with the array as it stands after the call.
Every numpy operation used (`[...]` slicing, `np.clip`, `-`, `*`, `/`)
allocates fresh output (no `out=` argument, no in-place operator), so
the input array passes through untouched; an out-of-range `index_no`
raises (modelled as `none`). -/
def preprocess (get_limits : Img2 → ℚ × ℚ) (nd_array : NdArray)
    (index_no : Nat) : Option (List Img2N) × NdArray :=
  match nd_array.get? index_no with
  | none => (none, nd_array)
  | some frame =>
    let real_image := scale_image get_limits (channelOf frame 0)
    let ref_image := scale_image get_limits (channelOf frame 1)
    let diff_image := scale_image get_limits (channelOf frame 2)
    (some [real_image, ref_image, diff_image], nd_array)

/-!
## Image annotator (`add_red_circle`, lines 423-440)
-/

/-- A matplotlib `Circle` patch as constructed by `add_red_circle`. -/
structure CirclePatch where
  center : Int × Int
  radius : ℚ
  edgecolor : String
  facecolor : String
  linewidth : ℚ
deriving DecidableEq

/-- The figure content assembled by `add_red_circle` before the canvas
is rasterized: the image shown via `imshow` with its colormap, and the
patches added to the axes. The final rasterization to an RGB array at
the renderer's canvas size is external matplotlib behaviour and is not
modelled. -/
structure RenderedFigure (α : Type) where
  shown : List (List α)
  cmap : String
  patches : List CirclePatch

/-- `add_red_circle` (lines 423-440): show the input grayscale
(`cmap='gray'`), compute `center_x = shape[1] // 2`,
`center_y = shape[0] // 2`, and add a single unfilled
(`facecolor='none'`) red circle of radius 7 at `(center_x, center_y)`. -/
def add_red_circle {α : Type} (image : List (List α)) : RenderedFigure α :=
  let center_x : Int := (image.headD []).length / 2
  let center_y : Int := image.length / 2
  { shown := image
    cmap := "gray"
    patches := [{ center := (center_x, center_y), radius := 7,
                  edgecolor := "red", facecolor := "none", linewidth := 3 }] }

/-!
## BigQuery table helper (`if_tbl_exists`, lines 207-221)
-/

/-- Errors the BigQuery client can raise; the `except` clause of
`if_tbl_exists` catches only `NotFound`. -/
inductive BqError where
  | notFound
  | other (msg : String)
deriving DecidableEq

/-- The value returned by `if_tbl_exists`: the literal `True` when the
lookup succeeds, or whatever `create_table` returned. -/
inductive TblRet (α : Type) where
  | bool (b : Bool)
  | table (t : α)
deriving DecidableEq

/-- `if_tbl_exists` (lines 207-221), with the external BigQuery client
represented by the results of its two calls: `get_table` (raising
`NotFound` when the table is missing) and `create_table`. The second
component of the result records whether `create_table` was invoked.
Only `NotFound` is caught; other lookup errors propagate. -/
def if_tbl_exists {α : Type} (get_table : Except BqError α)
    (create_table : Except BqError α) : Except BqError (TblRet α) × Bool :=
  match get_table with
  | .ok _ => (.ok (.bool true), false)
  | .error .notFound => (create_table.map .table, true)
  | .error e => (.error e, false)

/-!
## Prompt-list builder (`create_ex`, lines 40-72)
-/

/-- An element of the list returned by `create_ex`: a label string or a
loaded image part. -/
inductive PromptItem (α : Type) where
  | txt (s : String)
  | img (p : α)
deriving DecidableEq

/-- `create_ex` (lines 40-72), with the external image loader
`Part.from_image(Image.load_from_file(path))` abstracted as `load`. -/
def create_ex {α : Type} (load : String → α) (data_index : Nat)
    (examples : Bool) : List (PromptItem α) :=
  let str_new := "new image: "
  let str_ref := "reference image: "
  let str_dif := "difference image: "
  if examples then
    let image1 := load ("data/pics/prompt_pics/Example_" ++ toString data_index ++ "_fig_0.png")
    let image2 := load ("data/pics/prompt_pics/Example_" ++ toString data_index ++ "_fig_1.png")
    let image3 := load ("data/pics/prompt_pics/Example_" ++ toString data_index ++ "_fig_2.png")
    [.txt str_new, .img image1, .txt str_ref, .img image2, .txt str_dif, .img image3]
  else
    let image1 := load ("data/pics/Example_" ++ toString data_index ++ "_fig_0.png")
    let image2 := load ("data/pics/Example_" ++ toString data_index ++ "_fig_1.png")
    let image3 := load ("data/pics/Example_" ++ toString data_index ++ "_fig_2.png")
    [.txt str_new, .img image1, .txt str_ref, .img image2, .txt str_dif, .img image3]

/-- The directory `create_ex` loads from, as selected by the `examples`
flag. -/
def pics_dir (examples : Bool) : String :=
  if examples then "data/pics/prompt_pics/" else "data/pics/"

/-!
## Helper lemmas
-/

/-- The part-building loop fails at the first unsupported element. -/
theorem dynaPromptParts_invalid {d : List DynaPart} (h : DynaPart.invalid ∈ d) :
    dynaPromptParts d = .error .unsupportedType := by
  induction d with
  | nil => simp at h
  | cons x xs ih =>
    cases x with
    | invalid => rfl
    | str s =>
      have hx : DynaPart.invalid ∈ xs := by simpa using h
      simp [dynaPromptParts, ih hx, Except.map]
    | image j =>
      have hx : DynaPart.invalid ∈ xs := by simpa using h
      simp [dynaPromptParts, ih hx, Except.map]

/-- On a list of supported elements the part-building loop succeeds and
returns the elementwise conversion in input order. -/
theorem dynaPromptParts_valid {d : List DynaPart} (h : ∀ x ∈ d, x ≠ DynaPart.invalid) :
    dynaPromptParts d = .ok (d.map partJson) := by
  induction d with
  | nil => rfl
  | cons x xs ih =>
    have hxs : ∀ y ∈ xs, y ≠ DynaPart.invalid := fun y hy => h y (List.mem_cons_of_mem _ hy)
    cases x with
    | invalid => exact absurd rfl (h _ (List.mem_cons_self _ _))
    | str s => simp [dynaPromptParts, ih hxs, Except.map, partJson]
    | image j => simp [dynaPromptParts, ih hxs, Except.map, partJson]

/-!
## Claim theorems: batch prompt assembler
-/

/-- C1: for every `dyna_prompt` sequence containing an element that is
neither a string nor a recognized image reference, `batch_data_create`
fails with `InvalidPartError`, surfaced to the caller (the error is not
caught anywhere in the function). -/
theorem batch_data_create_invalid_part (s : String) (d : List DynaPart) (t p : ℚ)
    (h : DynaPart.invalid ∈ d) :
    batch_data_create s d t p = .error .unsupportedType := by
  simp [batch_data_create, batch_data_payload, dynaPromptParts_invalid h, Except.map]

/-- Witness for C1 at the concrete input `["a", <unsupported>]`. -/
theorem batch_data_create_invalid_part_witness :
    DynaPart.invalid ∈ [DynaPart.str "a", DynaPart.invalid] ∧
    batch_data_create "sys" [DynaPart.str "a", DynaPart.invalid] 1 1 = .error .unsupportedType :=
  ⟨by simp, batch_data_create_invalid_part "sys" _ 1 1 (by simp)⟩

/-- The fixed payload structure stated by the spec: one user turn with
the parts array, a system-instruction block with the static text, a
generation config with the constant token limit, the given sampling
parameters and the JSON response MIME type, and exactly four hazard
categories each set to `BLOCK_NONE`. -/
def payloadStructureOk (s : String) (d : List DynaPart) (t p : ℚ) (j : Json) : Prop :=
  (∃ parts, dynaPromptParts d = .ok parts ∧ j.getField "contents" =
      some (.arr [.obj [("role", .str "user"), ("parts", .arr parts)]])) ∧
  j.getField "system_instruction" =
      some (.obj [("parts", .arr [.obj [("text", .str s)]])]) ∧
  j.getField "generationConfig" =
      some (.obj [("maxOutputTokens", .num 2024), ("temperature", .num t),
                  ("topP", .num p), ("responseMimeType", .str "application/json")]) ∧
  ∃ ss, j.getField "safetySettings" = some (.arr ss) ∧ ss.length = 4 ∧
    ss.map (fun e => e.getField "category") =
      [some (.str "HARM_CATEGORY_HATE_SPEECH"), some (.str "HARM_CATEGORY_DANGEROUS_CONTENT"),
       some (.str "HARM_CATEGORY_SEXUALLY_EXPLICIT"), some (.str "HARM_CATEGORY_HARASSMENT")] ∧
    ∀ e ∈ ss, e.getField "threshold" = some (.str "BLOCK_NONE")

/-- C4: every payload produced by `batch_data_create` has the fixed
structure: exactly one user turn holding the dynamic parts, the
system-instruction block with the static text, a generation config with
the constant `maxOutputTokens`, the given `temperature` and `topP` and
response MIME type `application/json`, and a safety-settings list of
exactly four hazard categories, each with threshold `BLOCK_NONE`. -/
theorem batch_data_payload_structure (s : String) (d : List DynaPart) (t p : ℚ)
    (j : Json) (h : batch_data_payload s d t p = .ok j) :
    payloadStructureOk s d t p j := by
  cases hd : dynaPromptParts d with
  | error e =>
    rw [batch_data_payload, hd] at h
    simp [Except.map] at h
  | ok parts =>
    rw [batch_data_payload, hd] at h
    simp only [Except.map] at h
    cases h
    refine ⟨⟨parts, hd, rfl⟩, rfl, rfl, ⟨_, rfl, rfl, rfl, ?_⟩⟩
    intro e he
    simp only [List.mem_cons, List.not_mem_nil, or_false] at he
    rcases he with rfl | rfl | rfl | rfl <;> rfl

/-- A concrete example payload for the witness of C4: the result of
`batch_data_create("sys", ["x"], 1, 1)` before serialization. -/
def samplePayload : Json :=
  Json.obj [
    ("contents", .arr [
      .obj [("role", .str "user"), ("parts", .arr [.obj [("text", .str "x")]])]
    ]),
    ("system_instruction", .obj [("parts", .arr [.obj [("text", .str "sys")]])]),
    ("generationConfig", .obj [
      ("maxOutputTokens", .num 2024), ("temperature", .num 1),
      ("topP", .num 1), ("responseMimeType", .str "application/json")]),
    ("safetySettings", .arr [
      .obj [("category", .str "HARM_CATEGORY_HATE_SPEECH"), ("threshold", .str "BLOCK_NONE")],
      .obj [("category", .str "HARM_CATEGORY_DANGEROUS_CONTENT"), ("threshold", .str "BLOCK_NONE")],
      .obj [("category", .str "HARM_CATEGORY_SEXUALLY_EXPLICIT"), ("threshold", .str "BLOCK_NONE")],
      .obj [("category", .str "HARM_CATEGORY_HARASSMENT"), ("threshold", .str "BLOCK_NONE")]
    ])
  ]

/-- Witness for C4 at the concrete call `batch_data_create("sys", ["x"], 1, 1)`. -/
theorem batch_data_payload_structure_witness :
    batch_data_payload "sys" [DynaPart.str "x"] 1 1 = .ok samplePayload ∧
    payloadStructureOk "sys" [DynaPart.str "x"] 1 1 samplePayload :=
  ⟨rfl, batch_data_payload_structure "sys" [DynaPart.str "x"] 1 1 samplePayload rfl⟩

/-- C5: for every supported `dyna_prompt` sequence, `batch_data_create`
converts each element to its schema-compliant part object — `{"text": s}`
for a string `s`, the provider-encoded dict (`to_dict`) for an image —
and the `parts` array of the single user turn is exactly the elementwise
conversion in input order. -/
theorem batch_data_parts_in_order (s : String) (d : List DynaPart) (t p : ℚ)
    (h : ∀ x ∈ d, x ≠ DynaPart.invalid) :
    ∃ j, batch_data_payload s d t p = .ok j ∧
      contentsPartsOf j = some (d.map partJson) := by
  have hp := dynaPromptParts_valid h
  unfold batch_data_payload
  rw [hp]
  exact ⟨_, rfl, rfl⟩

/-- A concrete provider-encoded image part for witnesses. -/
def sampleImg : Json :=
  Json.obj [("inline_data", .obj [("mime_type", .str "image/png"), ("data", .str "QUJD")])]

/-- Witness for C5 at the concrete input `["hello", <image>, "world"]`:
the parts array has exactly 3 elements in that order, with
`{"text":"hello"}` first and `{"text":"world"}` last, verbatim. -/
theorem batch_data_parts_in_order_witness :
    (∀ x ∈ [DynaPart.str "hello", DynaPart.image sampleImg, DynaPart.str "world"],
        x ≠ DynaPart.invalid) ∧
    ∃ j, batch_data_payload "sys"
        [DynaPart.str "hello", DynaPart.image sampleImg, DynaPart.str "world"] 1 1 = .ok j ∧
      contentsPartsOf j = some [Json.obj [("text", .str "hello")], sampleImg,
        Json.obj [("text", .str "world")]] :=
  ⟨by simp, batch_data_parts_in_order "sys"
    [DynaPart.str "hello", DynaPart.image sampleImg, DynaPart.str "world"] 1 1 (by simp)⟩

/-- C6: `batch_data_create` is deterministic — two calls with equal
static instruction, dynamic parts, temperature and top_p produce
byte-identical serialized payloads (field order is the fixed insertion
order; nothing time- or randomness-dependent enters the payload). -/
theorem batch_data_create_deterministic (s1 s2 : String) (d1 d2 : List DynaPart)
    (t1 t2 p1 p2 : ℚ) (hs : s1 = s2) (hd : d1 = d2) (ht : t1 = t2) (hp : p1 = p2) :
    batch_data_create s1 d1 t1 p1 = batch_data_create s2 d2 t2 p2 := by
  subst hs hd ht hp
  rfl

/-- Witness for C6 at a concrete repeated call. -/
theorem batch_data_create_deterministic_witness :
    "sys" = "sys" ∧ (1 : ℚ) = 1 ∧
    batch_data_create "sys" [DynaPart.str "hello"] 1 1 =
      batch_data_create "sys" [DynaPart.str "hello"] 1 1 :=
  ⟨rfl, rfl, batch_data_create_deterministic "sys" "sys" [DynaPart.str "hello"]
    [DynaPart.str "hello"] 1 1 1 1 rfl rfl rfl rfl⟩

/-!
## Claim theorems: image normalizer
-/

/-- Every pixel of a normalized channel is an ordinary number lying in
`[0, 255]`. -/
def allInRange (img : Img2N) : Prop :=
  ∀ row ∈ img, ∀ y ∈ row, ∃ q, y = NpVal.rat q ∧ 0 ≤ q ∧ q ≤ 255

/-- Core bound: when the two z-scale limits differ, one rescaled pixel
is a plain number in `[0, 255]`. -/
theorem scalePixel_range (vmin vmax x : ℚ) (h : vmin ≠ vmax) :
    ∃ q, scalePixel vmin vmax x = .rat q ∧ 0 ≤ q ∧ q ≤ 255 := by
  have hd : vmax - vmin ≠ 0 := sub_ne_zero.mpr (Ne.symm h)
  refine ⟨255 * (npClip x vmin vmax - vmin) / (vmax - vmin), by simp [scalePixel, npDiv, hd], ?_, ?_⟩
  all_goals rcases lt_or_gt_of_ne h with hlt | hgt
  · have h1 : vmin ≤ npClip x vmin vmax :=
      le_min (le_max_right x vmin) (le_of_lt hlt)
    have hdpos : 0 < vmax - vmin := by linarith
    exact div_nonneg (by nlinarith) (le_of_lt hdpos)
  · have hclip : npClip x vmin vmax = vmax :=
      min_eq_right (le_trans (le_of_lt hgt) (le_max_right x vmin))
    rw [hclip, mul_div_assoc, div_self hd]
    norm_num
  · have h2 : npClip x vmin vmax ≤ vmax := min_le_right _ _
    have hdpos : 0 < vmax - vmin := by linarith
    rw [div_le_iff₀ hdpos]
    nlinarith
  · have hclip : npClip x vmin vmax = vmax :=
      min_eq_right (le_trans (le_of_lt hgt) (le_max_right x vmin))
    rw [hclip, mul_div_assoc, div_self hd]
    norm_num

/-- C3: for every channel whose robust low and high z-scale bounds
differ, `scale_image` — which by definition first clips the channel to
`[vmin, vmax]` and then applies the linear rescale
`255 * (x - vmin) / (vmax - vmin)` — produces only pixel values in
`[0, 255]`. -/
theorem scale_image_range (get_limits : Img2 → ℚ × ℚ) (image : Img2)
    (h : (get_limits image).1 ≠ (get_limits image).2) :
    allInRange (scale_image get_limits image) := by
  intro row hrow y hy
  simp only [scale_image, List.mem_map] at hrow
  obtain ⟨r0, _, rfl⟩ := hrow
  simp only [List.mem_map] at hy
  obtain ⟨x, _, rfl⟩ := hy
  exact scalePixel_range _ _ x h

/-- Witness for C3: a channel with limits `(0, 10)` and pixels below,
inside and above the window. -/
theorem scale_image_range_witness :
    ((fun _ : Img2 => ((0 : ℚ), (10 : ℚ))) [[-5, 3, 20]]).1 ≠
      ((fun _ : Img2 => ((0 : ℚ), (10 : ℚ))) [[-5, 3, 20]]).2 ∧
    allInRange (scale_image (fun _ => ((0 : ℚ), (10 : ℚ))) [[-5, 3, 20]]) :=
  ⟨by norm_num, scale_image_range (fun _ => ((0 : ℚ), (10 : ℚ))) [[-5, 3, 20]] (by norm_num)⟩

/-- C2 (code evaluated at the failing input): on a constant channel the
z-scale limits coincide, `vmax - vmin = 0`, and the rescale computes
`255 * 0 / 0` at every pixel; numpy does not raise (it warns) but every
output pixel is `nan` — not a defined fallback constant value. -/
theorem scale_image_constant_channel_nan :
    scale_image (fun _ => ((5 : ℚ), (5 : ℚ))) [[5, 5], [5, 5]] =
      [[NpVal.nan, NpVal.nan], [NpVal.nan, NpVal.nan]] := by
  norm_num [scale_image, scalePixel, npClip, npDiv]

/-- C8: `preprocess` has no side effect on its input: the array state
after the call is the input array itself, for every limit estimator,
input array and index (each numpy operation used allocates a fresh
result; the channel slices are read-only views). -/
theorem preprocess_no_side_effects (get_limits : Img2 → ℚ × ℚ)
    (nd_array : NdArray) (index_no : Nat) :
    (preprocess get_limits nd_array index_no).2 = nd_array := by
  unfold preprocess
  rcases nd_array.get? index_no with _ | f <;> rfl

/-!
## Claim theorems: annotator, table helper, prompt-list builder
-/

/-- C7: `add_red_circle` adds exactly one patch to the figure: an
unfilled (`facecolor = "none"`) circle of the fixed radius 7 (the same
literal for every call, independent of the input), centered at
`(shape[1] // 2, shape[0] // 2)` — i.e. `(width // 2, height // 2)` of
the input array — drawn over the input shown with the grayscale
colormap. -/
theorem add_red_circle_marker {α : Type} (image : List (List α)) :
    (add_red_circle image).patches =
      [{ center := ((image.headD []).length / 2, image.length / 2), radius := 7,
         edgecolor := "red", facecolor := "none", linewidth := 3 }] ∧
    (add_red_circle image).cmap = "gray" ∧
    (add_red_circle image).shown = image :=
  ⟨rfl, rfl, rfl⟩

/-- C9: when the lookup reports the table missing (`NotFound`),
`if_tbl_exists` swallows the error, invokes `create_table` and returns
its result normally; when the lookup finds the table, it returns the
literal `True` and never invokes `create_table`. -/
theorem if_tbl_exists_spec {α : Type} (get_table create_table : Except BqError α) :
    (∀ t, get_table = .error .notFound → create_table = .ok t →
      if_tbl_exists get_table create_table = (.ok (.table t), true)) ∧
    (∀ t, get_table = .ok t →
      if_tbl_exists get_table create_table = (.ok (.bool true), false)) := by
  constructor
  · rintro t rfl rfl
    rfl
  · rintro t rfl
    rfl

/-- Witness for C9: a missing table (lookup raises `NotFound`) is
created; an existing table returns `True` with no creation. -/
theorem if_tbl_exists_spec_witness :
    if_tbl_exists (Except.error BqError.notFound) (Except.ok 42) =
      (.ok (.table 42), true) ∧
    if_tbl_exists (Except.ok 42) (Except.ok 7) = (.ok (.bool true), false) :=
  ⟨(if_tbl_exists_spec (Except.error BqError.notFound) (Except.ok 42)).1 42 rfl rfl,
   (if_tbl_exists_spec (Except.ok 42) (Except.ok 7)).2 42 rfl⟩

/-- C10: for every index and both values of the `examples` flag,
`create_ex` returns exactly 6 elements: the label strings at positions
0, 2, 4 and the images loaded from the `fig_0`, `fig_1`, `fig_2` files
at positions 1, 3, 5; the flag selects only the directory
(`data/pics/prompt_pics/` vs `data/pics/`) the images are loaded from. -/
theorem create_ex_structure {α : Type} (load : String → α) (data_index : Nat)
    (examples : Bool) :
    create_ex load data_index examples = [
      .txt "new image: ",
      .img (load (pics_dir examples ++ "Example_" ++ toString data_index ++ "_fig_0.png")),
      .txt "reference image: ",
      .img (load (pics_dir examples ++ "Example_" ++ toString data_index ++ "_fig_1.png")),
      .txt "difference image: ",
      .img (load (pics_dir examples ++ "Example_" ++ toString data_index ++ "_fig_2.png"))] ∧
    (create_ex load data_index examples).length = 6 := by
  have e1 : "data/pics/prompt_pics/" ++ "Example_" = "data/pics/prompt_pics/Example_" := rfl
  have e2 : "data/pics/" ++ "Example_" = "data/pics/Example_" := rfl
  cases examples <;> refine ⟨?_, rfl⟩ <;> simp [create_ex, pics_dir, e1, e2]
